import Mathlib

/-!
Shallow embedding of the NEO close-approach query project
(`models.py`, `extract.py`, `filters.py`, `write.py`).

Python floats are modelled as `PFloat`: either the NaN sentinel or an
exact rational. The dynamic Python values, as far as this code handles
them, are modelled by `PyVal`; comparisons between them follow Python
semantics (`==` across mismatched types is `False`, ordering across
incomparable types is a `TypeError`, every comparison involving NaN
other than `!=` is `False`). Fallible Python code is modelled with
`Except PyError`.
-/

/-- The Python errors this code can raise. `unsupportedCriterion` models
`UnsupportedCriterionError` from `filters.py` (a `NotImplementedError`
subclass). -/
inductive PyError
  | typeError
  | valueError
  | attributeError
  | unsupportedCriterion
deriving DecidableEq, Repr

/-- A Python float: the NaN sentinel, or a numeric value (modelled as an
exact rational). -/
inductive PFloat
  | nan
  | num (q : ℚ)
deriving DecidableEq, Repr

/-- Python float equality: NaN is equal to nothing, including itself. -/
def PFloat.beqF : PFloat → PFloat → Bool
  | .num a, .num b => decide (a = b)
  | _, _ => false

/-- Python float `<`: false whenever NaN is involved. -/
def PFloat.ltF : PFloat → PFloat → Bool
  | .num a, .num b => decide (a < b)
  | _, _ => false

/-- Python float `<=`: false whenever NaN is involved. -/
def PFloat.leF : PFloat → PFloat → Bool
  | .num a, .num b => decide (a ≤ b)
  | _, _ => false

/-- Python float `>`: false whenever NaN is involved. -/
def PFloat.gtF : PFloat → PFloat → Bool
  | .num a, .num b => decide (b < a)
  | _, _ => false

/-- Python float `>=`: false whenever NaN is involved. -/
def PFloat.geF : PFloat → PFloat → Bool
  | .num a, .num b => decide (b ≤ a)
  | _, _ => false

/-- A calendar date, as returned by `datetime.date()`. Python compares
dates lexicographically by (year, month, day). -/
structure PyDate where
  year : ℕ
  month : ℕ
  day : ℕ
deriving DecidableEq, Repr

/-- Lexicographic `<` on dates, matching `datetime.date` ordering. -/
def PyDate.ltD (a b : PyDate) : Bool :=
  decide (a.year < b.year) ||
    (decide (a.year = b.year) &&
      (decide (a.month < b.month) ||
        (decide (a.month = b.month) && decide (a.day < b.day))))

/-- Comparison `<=` on dates. -/
def PyDate.leD (a b : PyDate) : Bool :=
  PyDate.ltD a b || decide (a = b)

/-- The Python values flowing through the filter system: `None`,
booleans, floats, dates and strings. -/
inductive PyVal
  | none
  | bool (b : Bool)
  | float (f : PFloat)
  | date (d : PyDate)
  | str (s : String)
deriving DecidableEq, Repr

/-- Test `x is not None`, which `create_filters` applies to its arguments. -/
def PyVal.isNotNone : PyVal → Bool
  | PyVal.none => false
  | _ => true

/-- View a value as a number where Python would: floats are themselves
and booleans are the integers 0 and 1. -/
def PyVal.asNum : PyVal → Option PFloat
  | .float f => some f
  | .bool b => some (.num (if b then 1 else 0))
  | _ => Option.none

/-- Python `==` on the values above: mismatched types compare unequal
(no error), numbers NaN-aware, booleans compare as numbers. -/
def pyEq : PyVal → PyVal → Bool
  | PyVal.none, PyVal.none => true
  | .date a, .date b => decide (a = b)
  | .str a, .str b => decide (a = b)
  | a, b =>
    match a.asNum, b.asNum with
    | some x, some y => PFloat.beqF x y
    | _, _ => false

/-- Python ordering comparisons, parametrised by the numeric, date and
string orderings: incomparable pairs (anything involving `None`, or
mismatched types) raise `TypeError`. -/
def pyOrd (f : PFloat → PFloat → Bool) (fd : PyDate → PyDate → Bool)
    (fs : String → String → Bool) : PyVal → PyVal → Except PyError Bool
  | .date a, .date b => .ok (fd a b)
  | .str a, .str b => .ok (fs a b)
  | a, b =>
    match a.asNum, b.asNum with
    | some x, some y => .ok (f x y)
    | _, _ => .error .typeError

/-- The six binary comparison operators of the `operator` module used by
the filter system. -/
inductive Op
  | eq
  | ne
  | lt
  | le
  | gt
  | ge
deriving DecidableEq, Repr

/-- Apply a comparison operator to two Python values, with the Python
semantics (see `pyEq` and `pyOrd`). -/
def pyCompare : Op → PyVal → PyVal → Except PyError Bool
  | .eq, a, b => .ok (pyEq a b)
  | .ne, a, b => .ok (!pyEq a b)
  | .lt, a, b => pyOrd PFloat.ltF PyDate.ltD (fun x y => decide (x < y)) a b
  | .le, a, b => pyOrd PFloat.leF PyDate.leD (fun x y => decide (x < y) || decide (x = y)) a b
  | .gt, a, b => pyOrd PFloat.gtF (fun x y => PyDate.ltD y x) (fun x y => decide (y < x)) a b
  | .ge, a, b => pyOrd PFloat.geF (fun x y => PyDate.leD y x) (fun x y => decide (y < x) || decide (x = y)) a b

/-! Section: Data model (`models.py`) -/

/-- A naive datetime as produced by `cd_to_datetime`. -/
structure Datetime where
  year : ℕ
  month : ℕ
  day : ℕ
  hour : ℕ
  minute : ℕ
  second : ℕ
deriving DecidableEq, Repr

/-- Method `datetime.date()`: the calendar-date portion of a datetime. -/
def Datetime.date (t : Datetime) : PyDate :=
  ⟨t.year, t.month, t.day⟩

/-- Left-pad a number to two digits, as `strftime` does. -/
def pad2 (n : ℕ) : String :=
  if n < 10 then ("0" ++ toString n) else toString n

/-- Left-pad a year to four digits. -/
def pad4 (n : ℕ) : String :=
  if n < 10 then ("000" ++ toString n)
  else if n < 100 then ("00" ++ toString n)
  else if n < 1000 then ("0" ++ toString n)
  else toString n

/-- Modelled from the spec: `helpers.datetime_to_str` (the `helpers`
module is referenced by `models.py` but its source is not part of the
given tree). Formats a datetime as `YYYY-MM-DD HH:MM`, appending `:SS`
only when the seconds are non-zero. -/
def datetime_to_str (t : Datetime) : String :=
  pad4 t.year ++ "-" ++ pad2 t.month ++ "-" ++ pad2 t.day ++ " " ++
    pad2 t.hour ++ ":" ++ pad2 t.minute ++
    (if t.second ≠ 0 then (":" ++ pad2 t.second) else (""))

/-- Class `NearEarthObject` from `models.py`. The `approaches` back-references
are kept as arena indices into the approach list of the database (breaking
the Python reference cycle); no code under verification reads them. -/
structure NearEarthObject where
  designation : String
  name : Option String
  diameter : PFloat
  hazardous : Bool
  approaches : List ℕ := []
deriving DecidableEq, Repr

/-- Class `CloseApproach` from `models.py`. `designation` models the private
`_designation` foreign key; `neo` is `None` until the database join
resolves it. The construction paths in this project always supply a
parsed datetime, so `time` is modelled as a `Datetime`. -/
structure CloseApproach where
  designation : String
  time : Datetime
  distance : PFloat
  velocity : PFloat
  neo : Option NearEarthObject := Option.none
deriving DecidableEq, Repr

/-- Method `CloseApproach.set_neo`: overwrite the `neo` reference only when a
non-`None` argument is supplied. -/
def CloseApproach.set_neo (a : CloseApproach)
    (neo : Option NearEarthObject := Option.none) : CloseApproach :=
  match neo with
  | Option.some n => { a with neo := Option.some n }
  | Option.none => a

/-- An optional name as the Python value stored in serialized
dictionaries: the string itself, or `None` when absent. -/
def nameVal : Option String → PyVal
  | Option.some s => PyVal.str s
  | Option.none => PyVal.none

/-- Method `NearEarthObject.serialize`: the dictionary (as an ordered
association list of Python values) written for the nested `neo` object
of the JSON output and reused for the CSV columns. -/
def NearEarthObject.serialize (o : NearEarthObject) : List (String × PyVal) :=
  [("designation", PyVal.str o.designation),
   ("name", nameVal o.name),
   ("diameter_km", PyVal.float o.diameter),
   ("potentially_hazardous", PyVal.bool o.hazardous)]

/-- Method `CloseApproach.serialize`: the dictionary of approach fields. -/
def CloseApproach.serialize (a : CloseApproach) : List (String × PyVal) :=
  [("datetime_utc", PyVal.str (datetime_to_str a.time)),
   ("distance_au", PyVal.float a.distance),
   ("velocity_km_s", PyVal.float a.velocity)]

/-! Section: Filter system (`filters.py`) -/

/-- The classes of the `AttributeFilter` hierarchy: the base class plus
the five concrete extraction variants. -/
inductive FilterClass
  | attribute
  | date
  | distance
  | velocity
  | diameter
  | hazardous
deriving DecidableEq, Repr

/-- An `AttributeFilter` instance: its (possibly sub-)class, the
comparison operator, and the reference value stored by `__init__`. -/
structure AttributeFilter where
  cls : FilterClass
  op : Op
  value : PyVal
deriving DecidableEq, Repr

/-- Initializer `AttributeFilter.__init__` (also reached via every subclass):
its body only stores the operator and reference value, so construction
always succeeds. -/
def AttributeFilter.init (cls : FilterClass) (op : Op) (value : PyVal) :
    Except PyError AttributeFilter :=
  .ok ⟨cls, op, value⟩

/-- The `get` classmethod: the base class raises
`UnsupportedCriterionError`; each concrete variant extracts its
attribute (reaching through `approach.neo`, which raises
`AttributeError` when the reference is unresolved, i.e. `None`). -/
def AttributeFilter.get (f : AttributeFilter) (a : CloseApproach) :
    Except PyError PyVal :=
  match f.cls with
  | .attribute => .error .unsupportedCriterion
  | .date => .ok (PyVal.date a.time.date)
  | .distance => .ok (PyVal.float a.distance)
  | .velocity => .ok (PyVal.float a.velocity)
  | .diameter =>
    match a.neo with
    | Option.some o => .ok (PyVal.float o.diameter)
    | Option.none => .error .attributeError
  | .hazardous =>
    match a.neo with
    | Option.some o => .ok (PyVal.bool o.hazardous)
    | Option.none => .error .attributeError

/-- Invocation `AttributeFilter.__call__`: evaluate `op(get(approach), value)`. -/
def AttributeFilter.call (f : AttributeFilter) (a : CloseApproach) :
    Except PyError Bool := do
  let x ← f.get a
  pyCompare f.op x f.value

/-- Inject an optional date argument as a Python value. -/
def optDateVal : Option PyDate → PyVal
  | Option.none => PyVal.none
  | Option.some d => PyVal.date d

/-- Inject an optional float argument as a Python value. -/
def optFloatVal : Option PFloat → PyVal
  | Option.none => PyVal.none
  | Option.some f => PyVal.float f

/-- Inject an optional boolean argument as a Python value. -/
def optBoolVal : Option Bool → PyVal
  | Option.none => PyVal.none
  | Option.some b => PyVal.bool b

/-- The ten filter objects `create_filters` constructs unconditionally
(once it is past its all-unset early return), before any are discarded:
lines 163-183 of `filters.py`. A parameter that is unset yields a
filter whose stored reference value is `PyVal.none`. -/
def create_filters_constructed (date start_date end_date : Option PyDate)
    (distance_min distance_max velocity_min velocity_max : Option PFloat)
    (diameter_min diameter_max : Option PFloat)
    (hazardous : Option Bool) : List AttributeFilter :=
  [⟨.date, .eq, optDateVal date⟩,
   ⟨.date, .ge, optDateVal start_date⟩,
   ⟨.date, .le, optDateVal end_date⟩,
   ⟨.distance, .ge, optFloatVal distance_min⟩,
   ⟨.distance, .le, optFloatVal distance_max⟩,
   ⟨.velocity, .ge, optFloatVal velocity_min⟩,
   ⟨.velocity, .le, optFloatVal velocity_max⟩,
   ⟨.diameter, .ge, optFloatVal diameter_min⟩,
   ⟨.diameter, .le, optFloatVal diameter_max⟩,
   ⟨.hazardous, .eq, optBoolVal hazardous⟩]

/-- Function `create_filters`: gather the ten arguments, return `None` when all
are unset; otherwise build the ten filter objects, pair each with its
argument, keep the ones whose argument is not `None`, and return that
collection. -/
def create_filters (date start_date end_date : Option PyDate)
    (distance_min distance_max velocity_min velocity_max : Option PFloat)
    (diameter_min diameter_max : Option PFloat)
    (hazardous : Option Bool) : Option (List AttributeFilter) :=
  let args : List PyVal :=
    [optDateVal date, optDateVal start_date, optDateVal end_date,
     optFloatVal distance_min, optFloatVal distance_max,
     optFloatVal velocity_min, optFloatVal velocity_max,
     optFloatVal diameter_min, optFloatVal diameter_max,
     optBoolVal hazardous]
  let args_not_none := args.filter PyVal.isNotNone
  if args_not_none.length = 0 then Option.none
  else
    let filters := create_filters_constructed date start_date end_date
      distance_min distance_max velocity_min velocity_max
      diameter_min diameter_max hazardous
    let list_mapped_filters := (args.zip filters).map
      (fun p => if p.1.isNotNone then Option.some p.2 else Option.none)
    Option.some (list_mapped_filters.filterMap id)

/-- Function `limit` from `filters.py`. `islice` (from `itertools`) is modelled
by `List.take`, except that, as documented, it raises `ValueError` when
its stop argument is negative. A falsy `n` (`None` or `0`) passes the
input through unchanged. -/
def limit {α : Type} (iterator : List α) (n : Option ℤ := Option.none) :
    Except PyError (List α) :=
  match n with
  | Option.none => .ok iterator
  | Option.some k =>
    if k = 0 then .ok iterator
    else if k < 0 then .error .valueError
    else .ok (iterator.take k.toNat)

/-! Section: Loading (`extract.py`) -/

/-- Numeric value of a list of decimal digit characters. -/
def digitsVal (l : List Char) : ℕ :=
  l.foldl (fun acc c => acc * 10 + (c.toNat - 48)) 0

/-- The decimal-literal core of the Python `float()` builtin: an optional
sign, then digits with an optional fractional part (`"12"`, `"12.5"`,
`"12."`, `".5"`); anything else raises `ValueError`. Exponent notation,
`inf`/`nan` spellings and whitespace stripping do not occur in this
inputs of this project and are modelled as `ValueError` too. -/
def parseDecimal (s : String) : Option ℚ :=
  let chars := s.toList
  let signed := match chars with
    | '-' :: r => (true, r)
    | '+' :: r => (false, r)
    | r => (false, r)
  let intPart := signed.2.takeWhile Char.isDigit
  let rest := signed.2.dropWhile Char.isDigit
  let mag : Option ℚ :=
    match rest with
    | [] => if intPart.isEmpty then Option.none else Option.some (digitsVal intPart)
    | '.' :: frac =>
      if frac.all Char.isDigit ∧ ¬(intPart.isEmpty ∧ frac.isEmpty) then
        Option.some ((digitsVal intPart : ℚ) +
          (digitsVal frac : ℚ) / ((10 : ℚ) ^ frac.length))
      else Option.none
    | _ => Option.none
  mag.map (fun q => if signed.1 then -q else q)

/-- Python `float()` on a string. -/
def pyFloat (s : String) : Except PyError PFloat :=
  match parseDecimal s with
  | Option.some q => .ok (.num q)
  | Option.none => .error .valueError

/-- One raw CSV row as read by `load_neos` (the four columns it uses). -/
structure NeoRow where
  pdes : String
  name : String
  diameter : String
  pha : String
deriving DecidableEq, Repr

/-- The per-row body of `load_neos`: an empty `name` becomes `None`, an
empty `diameter` becomes the NaN sentinel (otherwise `float()` is
applied), and `hazardous` is the test comparing the `pha` column with `"Y"`. -/
def load_neos_row (row : NeoRow) : Except PyError NearEarthObject := do
  let diameter ←
    if row.diameter.length > 0 then pyFloat row.diameter
    else .ok PFloat.nan
  .ok { designation := row.pdes
        name := if row.name.length > 0 then Option.some row.name else Option.none
        diameter := diameter
        hazardous := row.pha == "Y"
        approaches := [] }

/-- Function `load_neos` over a list of raw rows. -/
def load_neos (rows : List NeoRow) : Except PyError (List NearEarthObject) :=
  rows.mapM load_neos_row

/-! Section: Writers (`write.py`) -/

/-- A JSON value, as produced by `json.dump` (the Python `json` module emits NaN
for a NaN float, and `json.load` reads it back, so JSON numbers are
modelled as `PFloat`). -/
inductive Json
  | null
  | bool (b : Bool)
  | num (f : PFloat)
  | str (s : String)
  | arr (l : List Json)
  | obj (l : List (String × Json))
deriving Repr

/-- Encode a serialized Python value as JSON. A `date` value would make
`json.dump` raise; the serialized dictionaries never contain one, so the
case is mapped to `null`. -/
def PyVal.toJson : PyVal → Json
  | PyVal.none => Json.null
  | PyVal.bool b => Json.bool b
  | PyVal.float f => Json.num f
  | PyVal.str s => Json.str s
  | PyVal.date _ => Json.null

/-- Key lookup in a JSON object (the re-parsed dictionary access). -/
def jLookup (j : Json) (key : String) : Option Json :=
  match j with
  | Json.obj l => l.lookup key
  | _ => Option.none

/-- The CSV header written by `write_to_csv`. -/
def write_to_csv_fieldnames : List String :=
  ["datetime_utc", "distance_au", "velocity_km_s",
   "designation", "name", "diameter_km", "potentially_hazardous"]

/-- The loop body of `write_to_csv` for one result: dereference
`result.neo` (an `AttributeError` when the reference is unresolved),
rebuild and serialize the NEO and the approach, and zip the concatenated
key and value lists into the row dictionary. -/
def write_to_csv_row (result : CloseApproach) :
    Except PyError (List (String × PyVal)) :=
  match result.neo with
  | Option.none => .error .attributeError
  | Option.some o =>
    let neo := NearEarthObject.serialize
      { designation := o.designation, name := o.name,
        diameter := o.diameter, hazardous := o.hazardous, approaches := [] }
    let approach := CloseApproach.serialize
      { designation := o.designation, time := result.time,
        distance := result.distance, velocity := result.velocity,
        neo := Option.none }
    .ok (List.zip (approach.map Prod.fst ++ neo.map Prod.fst)
                  (approach.map Prod.snd ++ neo.map Prod.snd))

/-- Function `write_to_csv`: the sequence of row dictionaries it writes. -/
def write_to_csv (results : List CloseApproach) :
    Except PyError (List (List (String × PyVal))) :=
  results.mapM write_to_csv_row

/-- The loop body of `write_to_json` for one result: dereference
`result.neo`, rebuild and serialize the NEO and the approach, and attach
the NEO dictionary under the `neo` key (appended, since the key is
fresh). -/
def write_to_json_entry (result : CloseApproach) : Except PyError Json :=
  match result.neo with
  | Option.none => .error .attributeError
  | Option.some o =>
    let neo := NearEarthObject.serialize
      { designation := o.designation, name := o.name,
        diameter := o.diameter, hazardous := o.hazardous, approaches := [] }
    let approach := CloseApproach.serialize
      { designation := o.designation, time := result.time,
        distance := result.distance, velocity := result.velocity,
        neo := Option.none }
    .ok (Json.obj ((approach.map (fun p => (p.1, p.2.toJson))) ++
      [("neo", Json.obj (neo.map (fun p => (p.1, p.2.toJson))))]))

/-- Function `write_to_json`: the JSON document it dumps (an array with one entry
per result). `json.dump` followed by `json.load` is the identity on this
document, so round-trip properties are stated on it directly. -/
def write_to_json (results : List CloseApproach) : Except PyError Json := do
  let l ← results.mapM write_to_json_entry
  .ok (Json.arr l)

/-! Section: Sample values used by witnesses -/

/-- A sample NEO with a known diameter. -/
def neoEros : NearEarthObject :=
  { designation := "433", name := Option.some ("Eros"),
    diameter := PFloat.num (421 / 25), hazardous := false, approaches := [] }

/-- A sample NEO whose diameter is unknown (the NaN sentinel). -/
def neoUnknown : NearEarthObject :=
  { designation := "2020 AB", name := Option.none,
    diameter := PFloat.nan, hazardous := true, approaches := [] }

/-- A sample close approach resolved to `neoUnknown`. -/
def approachNan : CloseApproach :=
  { designation := "2020 AB", time := ⟨2027, 4, 30, 12, 0, 0⟩,
    distance := PFloat.num (3 / 20), velocity := PFloat.num (26 / 5),
    neo := Option.some neoUnknown }

/-- A sample close approach resolved to `neoEros`. -/
def approachEros : CloseApproach :=
  { designation := "433", time := ⟨2027, 4, 30, 12, 0, 0⟩,
    distance := PFloat.num (3 / 20), velocity := PFloat.num (26 / 5),
    neo := Option.some neoEros }

/-- A sample close approach whose NEO reference is unresolved. -/
def approachUnresolved : CloseApproach :=
  { designation := "999", time := ⟨2021, 2, 3, 4, 5, 0⟩,
    distance := PFloat.num 0, velocity := PFloat.num 0,
    neo := Option.none }

/-! Section: C2: all parameters unset -/

/-- C2: `create_filters` with all ten parameters unset returns `None`
(a value distinct from the empty collection at the return type of the
builder). -/
theorem create_filters_all_unset_none :
    create_filters Option.none Option.none Option.none Option.none
      Option.none Option.none Option.none Option.none Option.none
      Option.none = (Option.none : Option (List AttributeFilter)) ∧
    (Option.none : Option (List AttributeFilter)) ≠ Option.some [] :=
  ⟨rfl, by simp⟩

/-! Section: C5: the base predicate -/

/-- C5 (amended): constructing the base `AttributeFilter` succeeds (its
initializer only stores its arguments), and invoking it on any approach
fails with `UnsupportedCriterionError`, for every operator and reference
value. -/
theorem base_filter_unsupported (op : Op) (v : PyVal) (a : CloseApproach) :
    AttributeFilter.init FilterClass.attribute op v =
      .ok ⟨FilterClass.attribute, op, v⟩ ∧
    AttributeFilter.call ⟨FilterClass.attribute, op, v⟩ a =
      .error .unsupportedCriterion :=
  ⟨rfl, rfl⟩

/-- C5 counterexample to the claim as stated: attempting to construct
the base predicate does not fail — at a concrete operator and reference
value the initializer returns the filter object, not an error. -/
theorem base_filter_construction_succeeds :
    AttributeFilter.init FilterClass.attribute Op.eq PyVal.none =
      .ok ⟨FilterClass.attribute, Op.eq, PyVal.none⟩ :=
  rfl

/-! Section: C9: `set_neo` frame condition -/

/-- C9: `set_neo` with `None` (its default) leaves the approach
untouched, and in general the `neo` field afterwards is the supplied
reference when present and the old reference otherwise — a resolved
reference is never reset to unresolved. -/
theorem set_neo_frame (a : CloseApproach) (v : Option NearEarthObject) :
    a.set_neo Option.none = a ∧
    (a.set_neo v).neo = Option.or v a.neo := by
  refine ⟨rfl, ?_⟩
  cases v <;> rfl

/-! Section: C10: negative limit -/

/-- C10: a negative `n` is truthy, so `limit` does not pass the sequence
through; `islice` then rejects the negative stop value with
`ValueError`. -/
theorem limit_negative_value_error {α : Type} (seq : List α) (n : ℤ)
    (h : n < 0) :
    limit seq (Option.some n) = .error .valueError := by
  have h0 : n ≠ 0 := by omega
  simp [limit, h0, h]

/-- Witness for C10 at a concrete sequence and limit. -/
theorem limit_negative_value_error_witness :
    (-1 : ℤ) < 0 ∧
    limit ([1, 2, 3] : List ℕ) (Option.some (-1)) = .error .valueError :=
  ⟨by decide, limit_negative_value_error [1, 2, 3] (-1) (by decide)⟩

/-! Section: C4: `limit` pass-through, prefixes, and prefix-determinism -/

/-- C4: `limit` with `None` or `0` passes the sequence through; for
`0 < n < length` it yields exactly the first `n` elements in order; for
`n ≥ length` it yields the full sequence; and for a positive `n` its
output is determined by the first `n` elements alone (the lazy stream
never has to look further). -/
theorem limit_spec {α : Type} (seq : List α) :
    limit seq Option.none = .ok seq ∧
    limit seq (Option.some 0) = .ok seq ∧
    (∀ n : ℤ, 0 < n → n < (seq.length : ℤ) →
      limit seq (Option.some n) = .ok (seq.take n.toNat)) ∧
    (∀ n : ℤ, (seq.length : ℤ) ≤ n → limit seq (Option.some n) = .ok seq) ∧
    (∀ n : ℤ, 0 < n → ∀ seq' : List α,
      seq.take n.toNat = seq'.take n.toNat →
      limit seq (Option.some n) = limit seq' (Option.some n)) := by
  refine ⟨rfl, rfl, ?_, ?_, ?_⟩
  · intro n h0 _
    have h1 : n ≠ 0 := by omega
    have h2 : ¬n < 0 := by omega
    simp [limit, h1, h2]
  · intro n hn
    by_cases h0 : n = 0
    · subst h0
      have : seq = [] := List.length_eq_zero.mp (by omega)
      simp [this, limit]
    · have hpos : 0 < n := by
        have : (0 : ℤ) ≤ seq.length := by positivity
        omega
      have h2 : ¬n < 0 := by omega
      have htake : seq.take n.toNat = seq :=
        List.take_of_length_le (by omega)
      simp [limit, h0, h2, htake]
  · intro n h0 seq' htake
    have h1 : n ≠ 0 := by omega
    have h2 : ¬n < 0 := by omega
    simp [limit, h1, h2, htake]

/-- Witness for C4 at a concrete sequence and limit. -/
theorem limit_spec_witness :
    (0 : ℤ) < 2 ∧ (2 : ℤ) < (([10, 20, 30] : List ℕ).length : ℤ) ∧
    limit ([10, 20, 30] : List ℕ) (Option.some 2) = .ok [10, 20] :=
  ⟨by decide, by decide,
    (limit_spec [10, 20, 30]).2.2.1 2 (by decide) (by decide)⟩

/-! Section: C3: NaN diameter never matches -/

/-- C3: a `DiameterFilter` (a filter of class `diameter`) built with any
of the five operators `==`, `<`, `<=`, `>`, `>=` and any float reference
value evaluates to `False` on every approach whose resolved NEO has the
NaN diameter sentinel. -/
theorem diameter_nan_never_matches (op : Op)
    (hop : op ∈ [Op.eq, Op.lt, Op.le, Op.gt, Op.ge])
    (v : PFloat) (a : CloseApproach) (o : NearEarthObject)
    (hneo : a.neo = Option.some o) (hnan : o.diameter = PFloat.nan) :
    AttributeFilter.call ⟨FilterClass.diameter, op, PyVal.float v⟩ a =
      .ok false := by
  fin_cases hop <;>
    simp [AttributeFilter.call, AttributeFilter.get, hneo, hnan,
      pyCompare, pyOrd, pyEq, PyVal.asNum, PFloat.beqF, PFloat.ltF,
      PFloat.leF, PFloat.gtF, PFloat.geF, Except.bind] <;>
    rfl

/-- Witness for C3 at a concrete operator, reference value and
approach. -/
theorem diameter_nan_never_matches_witness :
    Op.le ∈ [Op.eq, Op.lt, Op.le, Op.gt, Op.ge] ∧
    approachNan.neo = Option.some neoUnknown ∧
    neoUnknown.diameter = PFloat.nan ∧
    AttributeFilter.call
      ⟨FilterClass.diameter, Op.le, PyVal.float (PFloat.num 10)⟩
      approachNan = .ok false :=
  ⟨by decide, rfl, rfl,
    diameter_nan_never_matches Op.le (by decide) (PFloat.num 10)
      approachNan neoUnknown rfl rfl⟩

/-! Section: C1: `create_filters` builds exactly one predicate per set
parameter -/

/-- One optional predicate: empty when the parameter is unset, a
singleton when it is set. -/
def optPredicate {α : Type} : Option α → (α → AttributeFilter) → List AttributeFilter
  | Option.none, _ => []
  | Option.some x, mk => [mk x]

/-- The collection of predicates the builder description in the spec
calls for: exactly one predicate per set parameter (none for unset ones),
with the stated mapping — `date` → date equality, `start_date` → date ≥,
`end_date` → date ≤, `distance_min` → distance ≥, `distance_max` →
distance ≤, `velocity_min` → velocity ≥, `velocity_max` → velocity ≤,
`diameter_min` → diameter ≥, `diameter_max` → diameter ≤, `hazardous` →
hazardous equality. -/
def spec_filter_collection (date start_date end_date : Option PyDate)
    (distance_min distance_max velocity_min velocity_max : Option PFloat)
    (diameter_min diameter_max : Option PFloat)
    (hazardous : Option Bool) : List AttributeFilter :=
  optPredicate date (fun d => ⟨.date, .eq, PyVal.date d⟩) ++
  optPredicate start_date (fun d => ⟨.date, .ge, PyVal.date d⟩) ++
  optPredicate end_date (fun d => ⟨.date, .le, PyVal.date d⟩) ++
  optPredicate distance_min (fun q => ⟨.distance, .ge, PyVal.float q⟩) ++
  optPredicate distance_max (fun q => ⟨.distance, .le, PyVal.float q⟩) ++
  optPredicate velocity_min (fun q => ⟨.velocity, .ge, PyVal.float q⟩) ++
  optPredicate velocity_max (fun q => ⟨.velocity, .le, PyVal.float q⟩) ++
  optPredicate diameter_min (fun q => ⟨.diameter, .ge, PyVal.float q⟩) ++
  optPredicate diameter_max (fun q => ⟨.diameter, .le, PyVal.float q⟩) ++
  optPredicate hazardous (fun b => ⟨.hazardous, .eq, PyVal.bool b⟩)

set_option maxHeartbeats 4000000 in
/-- C1 (amended, returned-collection part): `create_filters` returns
`None` when every parameter is unset, and otherwise returns exactly the
collection from the spec — one predicate per set parameter with the stated
mapping, and no predicate for any unset parameter. -/
theorem create_filters_returns_spec_collection
    (date start_date end_date : Option PyDate)
    (distance_min distance_max velocity_min velocity_max : Option PFloat)
    (diameter_min diameter_max : Option PFloat)
    (hazardous : Option Bool) :
    create_filters date start_date end_date distance_min distance_max
      velocity_min velocity_max diameter_min diameter_max hazardous =
    (if date = Option.none ∧ start_date = Option.none ∧
        end_date = Option.none ∧ distance_min = Option.none ∧
        distance_max = Option.none ∧ velocity_min = Option.none ∧
        velocity_max = Option.none ∧ diameter_min = Option.none ∧
        diameter_max = Option.none ∧ hazardous = Option.none
     then Option.none
     else Option.some (spec_filter_collection date start_date end_date
       distance_min distance_max velocity_min velocity_max
       diameter_min diameter_max hazardous)) := by
  rcases date with _ | d <;> rcases start_date with _ | sd <;>
    rcases end_date with _ | ed <;> rcases distance_min with _ | q1 <;>
    rcases distance_max with _ | q2 <;> rcases velocity_min with _ | q3 <;>
    rcases velocity_max with _ | q4 <;> rcases diameter_min with _ | q5 <;>
    rcases diameter_max with _ | q6 <;> rcases hazardous with _ | b <;>
    rfl

/-- C1 counterexample to the claim as stated: with only `date` set, the
code still constructs a placeholder `DateFilter` for the unset
`start_date` — a date-≥ predicate whose stored reference value is the
unset value `None` — inside its unconditional list of ten filter
objects (it is discarded afterwards, not left unbuilt). -/
theorem create_filters_constructs_placeholder :
    (⟨FilterClass.date, Op.ge, PyVal.none⟩ : AttributeFilter) ∈
      create_filters_constructed (Option.some ⟨2020, 1, 1⟩) Option.none
        Option.none Option.none Option.none Option.none Option.none
        Option.none Option.none Option.none := by
  decide

/-! Section: C7: `load_neos` raw-record handling -/

/-- A string is empty exactly when its length is zero (bridging the
length tests `len(...) > 0` in the code with emptiness). -/
lemma string_eq_empty_iff_length (s : String) : s = "" ↔ s.length = 0 := by
  cases s with
  | mk l =>
    constructor
    · intro h
      rw [h]
      rfl
    · intro h
      have hl : l = [] := List.length_eq_zero.mp h
      rw [hl]

/-- C7: for every raw NEO record that `load_neos` turns into an object,
the designation is copied, an empty name yields the absent-name state
`None` (otherwise the name string itself), an empty diameter yields the
NaN sentinel (otherwise the value `float()` parses), and the hazardous
flag is set exactly when the raw value is the string `"Y"`. -/
theorem load_neos_row_fields (row : NeoRow) (neo : NearEarthObject)
    (h : load_neos_row row = .ok neo) :
    neo.designation = row.pdes ∧
    neo.name = (if row.name = "" then Option.none else Option.some row.name) ∧
    (row.diameter = "" → neo.diameter = PFloat.nan) ∧
    (row.diameter ≠ "" → pyFloat row.diameter = .ok neo.diameter) ∧
    (neo.hazardous = true ↔ row.pha = "Y") := by
  by_cases hd : row.diameter = ""
  · have hlen : ¬row.diameter.length > 0 := by
      simp [(string_eq_empty_iff_length row.diameter).mp hd]
    simp only [load_neos_row, hlen, if_false] at h
    have hneo : neo = ⟨row.pdes,
        if row.name.length > 0 then Option.some row.name else Option.none,
        PFloat.nan, row.pha == "Y", []⟩ := by
      cases h
      rfl
    subst hneo
    refine ⟨rfl, ?_, fun _ => rfl, fun hne => absurd hd hne, ?_⟩
    · by_cases hn : row.name = ""
      · simp [hn, (string_eq_empty_iff_length row.name).mp hn]
      · have : row.name.length > 0 := by
          rcases Nat.eq_zero_or_pos row.name.length with h0 | h0
          · exact absurd ((string_eq_empty_iff_length row.name).mpr h0) hn
          · exact h0
        simp [hn, this]
    · simp [beq_iff_eq]
  · have hlen : row.diameter.length > 0 := by
      rcases Nat.eq_zero_or_pos row.diameter.length with h0 | h0
      · exact absurd ((string_eq_empty_iff_length row.diameter).mpr h0) hd
      · exact h0
    simp only [load_neos_row, hlen, if_true] at h
    cases hf : pyFloat row.diameter with
    | error e =>
      rw [hf] at h
      exact absurd h (fun hh => Except.noConfusion hh)
    | ok q =>
      rw [hf] at h
      have hneo : neo = ⟨row.pdes,
          if row.name.length > 0 then Option.some row.name else Option.none,
          q, row.pha == "Y", []⟩ := by
        cases h
        rfl
      subst hneo
      refine ⟨rfl, ?_, fun he => absurd he hd, fun _ => rfl, ?_⟩
      · by_cases hn : row.name = ""
        · simp [hn, (string_eq_empty_iff_length row.name).mp hn]
        · have : row.name.length > 0 := by
            rcases Nat.eq_zero_or_pos row.name.length with h0 | h0
            · exact absurd ((string_eq_empty_iff_length row.name).mpr h0) hn
            · exact h0
          simp [hn, this]
      · simp [beq_iff_eq]

/-- Witness for C7 on a concrete raw record with empty name and
diameter columns. -/
theorem load_neos_row_fields_witness :
    load_neos_row ⟨"2020 AB", "", "", "Y"⟩ = .ok neoUnknown ∧
    (neoUnknown.designation = "2020 AB" ∧
     neoUnknown.name = (if ("" : String) = "" then Option.none
                        else Option.some ("")) ∧
     (("" : String) = "" → neoUnknown.diameter = PFloat.nan) ∧
     (("" : String) ≠ "" → pyFloat ("") = .ok neoUnknown.diameter) ∧
     (neoUnknown.hazardous = true ↔ ("Y" : String) = "Y")) := by
  have h : load_neos_row ⟨"2020 AB", "", "", "Y"⟩ = .ok neoUnknown := rfl
  exact ⟨h, load_neos_row_fields ⟨"2020 AB", "", "", "Y"⟩ neoUnknown h⟩

/-! Section: C6: JSON round trip for a resolved approach -/

/-- C6: serializing an approach with a resolved NEO through
`write_to_json` produces (after the identity `json.dump`/`json.load`
round trip) an entry whose `datetime_utc`, `distance_au` and
`velocity_km_s` keys hold the datetime string, distance and velocity of
the approach, and whose nested `neo` object holds the NEO fields:
name, diameter (structurally, hence NaN-aware, equal) and hazardous
flag. -/
theorem write_to_json_round_trip (a : CloseApproach) (o : NearEarthObject)
    (h : a.neo = Option.some o) :
    ∃ entry : Json, write_to_json [a] = .ok (Json.arr [entry]) ∧
      jLookup entry ("datetime_utc") =
        Option.some (Json.str (datetime_to_str a.time)) ∧
      jLookup entry ("distance_au") = Option.some (Json.num a.distance) ∧
      jLookup entry ("velocity_km_s") = Option.some (Json.num a.velocity) ∧
      ∃ neoObj : Json, jLookup entry ("neo") = Option.some neoObj ∧
        jLookup neoObj ("designation") =
          Option.some (Json.str o.designation) ∧
        jLookup neoObj ("name") = Option.some ((nameVal o.name).toJson) ∧
        jLookup neoObj ("diameter_km") = Option.some (Json.num o.diameter) ∧
        jLookup neoObj ("potentially_hazardous") =
          Option.some (Json.bool o.hazardous) := by
  refine ⟨Json.obj
      [("datetime_utc", Json.str (datetime_to_str a.time)),
       ("distance_au", Json.num a.distance),
       ("velocity_km_s", Json.num a.velocity),
       ("neo", Json.obj
         [("designation", Json.str o.designation),
          ("name", (nameVal o.name).toJson),
          ("diameter_km", Json.num o.diameter),
          ("potentially_hazardous", Json.bool o.hazardous)])],
    ?_, rfl, rfl, rfl,
    Json.obj
      [("designation", Json.str o.designation),
       ("name", (nameVal o.name).toJson),
       ("diameter_km", Json.num o.diameter),
       ("potentially_hazardous", Json.bool o.hazardous)],
    rfl, rfl, rfl, rfl, rfl⟩
  simp only [write_to_json, List.mapM_cons, List.mapM_nil,
    write_to_json_entry, h, NearEarthObject.serialize,
    CloseApproach.serialize, List.map_cons, List.map_nil, PyVal.toJson]
  rfl

/-- Witness for C6 at a concrete resolved approach. -/
theorem write_to_json_round_trip_witness :
    approachEros.neo = Option.some neoEros ∧
    (∃ entry : Json, write_to_json [approachEros] = .ok (Json.arr [entry]) ∧
      jLookup entry ("datetime_utc") =
        Option.some (Json.str (datetime_to_str approachEros.time)) ∧
      jLookup entry ("distance_au") =
        Option.some (Json.num approachEros.distance) ∧
      jLookup entry ("velocity_km_s") =
        Option.some (Json.num approachEros.velocity) ∧
      ∃ neoObj : Json, jLookup entry ("neo") = Option.some neoObj ∧
        jLookup neoObj ("designation") =
          Option.some (Json.str neoEros.designation) ∧
        jLookup neoObj ("name") =
          Option.some ((nameVal neoEros.name).toJson) ∧
        jLookup neoObj ("diameter_km") =
          Option.some (Json.num neoEros.diameter) ∧
        jLookup neoObj ("potentially_hazardous") =
          Option.some (Json.bool neoEros.hazardous)) :=
  ⟨rfl, write_to_json_round_trip approachEros neoEros rfl⟩

/-! C8: the writers require the NEO of every result to be resolved -/

/-- Both writer loop bodies either fail with `AttributeError` (exactly
when the `neo` of the result is unresolved) or succeed. -/
lemma writer_body_cases {β : Type}
    (f : CloseApproach → Except PyError β)
    (hf : ∀ b, b.neo = Option.none → f b = .error .attributeError)
    (hok : ∀ b o, b.neo = Option.some o → ∃ y, f b = .ok y)
    (l : List CloseApproach) (a : CloseApproach)
    (ha : a ∈ l) (hn : a.neo = Option.none) :
    l.mapM f = .error .attributeError := by
  induction l with
  | nil => exact absurd ha (List.not_mem_nil a)
  | cons b t ih =>
    rw [List.mapM_cons]
    rcases List.mem_cons.mp ha with rfl | hmem
    · rw [hf a hn]
      rfl
    · cases hb : b.neo with
      | none =>
        rw [hf b hb]
        rfl
      | some o =>
        obtain ⟨y, hy⟩ := hok b o hb
        rw [hy, ih hmem]
        rfl

/-- C8: if any result in the stream has an unresolved (`None`) NEO
reference, both `write_to_csv` and `write_to_json` fail with
`AttributeError` while dereferencing `result.neo`; unresolved
approaches cannot be serialized. -/
theorem writers_require_resolved_neo (results : List CloseApproach)
    (a : CloseApproach) (ha : a ∈ results) (hn : a.neo = Option.none) :
    write_to_csv results = .error .attributeError ∧
    write_to_json results = .error .attributeError := by
  constructor
  · exact writer_body_cases write_to_csv_row
      (fun b hb => by simp [write_to_csv_row, hb])
      (fun b o hb => by
        unfold write_to_csv_row
        rw [hb]
        exact ⟨_, rfl⟩)
      results a ha hn
  · have hmap : results.mapM write_to_json_entry = .error .attributeError :=
      writer_body_cases write_to_json_entry
        (fun b hb => by simp [write_to_json_entry, hb])
        (fun b o hb => by
          unfold write_to_json_entry
          rw [hb]
          exact ⟨_, rfl⟩)
        results a ha hn
    unfold write_to_json
    rw [hmap]
    rfl

/-- Witness for C8 at a concrete one-element result stream whose only
approach is unresolved. -/
theorem writers_require_resolved_neo_witness :
    approachUnresolved ∈ [approachUnresolved] ∧
    approachUnresolved.neo = Option.none ∧
    (write_to_csv [approachUnresolved] = .error .attributeError ∧
     write_to_json [approachUnresolved] = .error .attributeError) :=
  ⟨List.mem_singleton.mpr rfl, rfl,
    writers_require_resolved_neo [approachUnresolved] approachUnresolved
      (List.mem_singleton.mpr rfl) rfl⟩
